import Mathlib

/-!
# Verification of the `pedidos-iseas` order-management core

Shallow embedding of the order data model and the operations of
`src/hooks/use-supabase.ts` and the page component (`src/unnamed/part_001`):
the in-memory order cache, the Supabase-backed persistence operations
(`fetchOrders`, `createOrder`, `updateOrder`, `deleteOrder`,
`setWorkingOnOrder`, `clearWorkingOnOrder`), the local-storage fallback
branches, the row mapper `mapOrderRow`, and the page's derived buckets and
notification-diff effect.

Conventions of the embedding:
* TypeScript numbers are modelled as `Int` (the claims only depend on
  zero-versus-nonzero and on equality, never on float rounding).
* `Date` values are modelled as `Nat` millisecond timestamps.
* Nullable / optional TS fields are `Option`.
* JavaScript truthiness tests that the source applies to numbers
  (`x ? f(x) : undefined`) are modelled by `jsNumField`: both `null` and
  `0` are falsy.  Truthiness tests on strings treat `""` as falsy
  (`strTruthy`).
* The Supabase tables are modelled by `DB`, a record of row lists; the
  nested select of `fetchOrders` is modelled by filtering child rows on
  `order_id`.
-/

namespace Pedidos

/-- The 8-state status enum of `use-supabase.ts`. -/
inductive OrderStatus
  | en_armado
  | armado
  | armado_controlado
  | facturado
  | factura_controlada
  | en_transito
  | entregado
  | pagado
deriving DecidableEq, Repr, BEq

/-- Role of a user: `"vale"` (coordinator) or `"armador"` (operator). -/
inductive Role
  | vale
  | armador
deriving DecidableEq, Repr, BEq

/-- The `User` type of the source. -/
structure User where
  id : String
  name : String
  role : Role
deriving DecidableEq, Repr

/-- The `paymentMethod` enum (`"efectivo" | "transferencia"`). -/
inductive PaymentMethod
  | efectivo
  | transferencia
deriving DecidableEq, Repr, BEq

/-- The `Product` (line item) type of the source. -/
structure Product where
  id : String
  code : Option String
  name : String
  quantity : Int
  originalQuantity : Option Int
  isChecked : Option Bool
  unitPrice : Option Int
  subtotal : Option Int
deriving DecidableEq, Repr

/-- The `MissingProduct` type of the source. -/
structure MissingProduct where
  productId : String
  productName : String
  code : Option String
  quantity : Int
deriving DecidableEq, Repr

/-- The `ReturnedProduct` type of the source. -/
structure ReturnedProduct where
  productId : String
  productName : String
  code : Option String
  quantity : Int
  reason : Option String
deriving DecidableEq, Repr

/-- The `HistoryEntry` type of the source (`timestamp` as epoch millis). -/
structure HistoryEntry where
  id : String
  action : String
  user : String
  timestamp : Nat
  notes : Option String
deriving DecidableEq, Repr

/-- The `Order` aggregate of the source. -/
structure Order where
  id : String
  clientName : String
  clientAddress : String
  products : List Product
  status : OrderStatus
  missingProducts : List MissingProduct
  returnedProducts : List ReturnedProduct
  paymentMethod : Option PaymentMethod
  isPaid : Bool
  createdAt : Nat
  history : List HistoryEntry
  armedBy : Option String
  controlledBy : Option String
  awaitingPaymentVerification : Option Bool
  initialNotes : Option String
  currentlyWorkingBy : Option String
  workingStartTime : Option Nat
  totalAmount : Option Int
deriving DecidableEq, Repr

/-! ## JavaScript truthiness helpers -/

/-- JS truthiness on a nullable number: `x ? f(x) : undefined` maps both
`null`/`undefined` and `0` to `undefined`.  Used by `mapOrderRow` on
`total_amount`, `original_quantity`, `unit_price` and `subtotal`. -/
def jsNumField (x : Option Int) : Option Int :=
  match x with
  | none => none
  | some v => if v = 0 then none else some v

/-- JS truthiness on a nullable string: `undefined` and `""` are falsy. -/
def strTruthy (s : Option String) : Bool :=
  match s with
  | none => false
  | some v => v ≠ ""

/-- JS `s || undefined` on a nullable string (used for `initialNotes`). -/
def strOrUndefined (s : Option String) : Option String :=
  if strTruthy s then s else none

/-! ## Derived buckets of the page component

`src/unnamed/part_001` lines 258-260:
```
const activeOrders = orders.filter((o) => o.status !== "pagado" && o.status !== "entregado")
const pendingPaymentOrders = orders.filter((o) => o.status === "entregado" && !o.isPaid)
const completedOrders = orders.filter((o) => o.status === "pagado")
```
-/

/-- Predicate of the `activeOrders` filter. -/
def isActiveOrder (o : Order) : Bool :=
  o.status != .pagado && o.status != .entregado

/-- Predicate of the `pendingPaymentOrders` filter. -/
def isPendingPaymentOrder (o : Order) : Bool :=
  o.status == .entregado && !o.isPaid

/-- Predicate of the `completedOrders` filter. -/
def isCompletedOrder (o : Order) : Bool :=
  o.status == .pagado

/-- `activeOrders` as computed by the page. -/
def activeOrders (orders : List Order) : List Order :=
  orders.filter isActiveOrder

/-- `pendingPaymentOrders` as computed by the page. -/
def pendingPaymentOrders (orders : List Order) : List Order :=
  orders.filter isPendingPaymentOrder

/-- `completedOrders` as computed by the page. -/
def completedOrders (orders : List Order) : List Order :=
  orders.filter isCompletedOrder

/-- A reusable all-fields-defaulted order for concrete test states. -/
def baseOrder : Order :=
  { id := "PED-1"
    clientName := "Acme"
    clientAddress := ""
    products := []
    status := .en_armado
    missingProducts := []
    returnedProducts := []
    paymentMethod := none
    isPaid := false
    createdAt := 0
    history := []
    armedBy := none
    controlledBy := none
    awaitingPaymentVerification := none
    initialNotes := none
    currentlyWorkingBy := none
    workingStartTime := none
    totalAmount := none }

/-- A delivered-and-paid order: `status = entregado`, `isPaid = true`. -/
def deliveredPaidOrder : Order :=
  { baseOrder with id := "PED-DP", status := .entregado, isPaid := true }

/-- C1 (counterexample): the three buckets are NOT collectively exhaustive.
A concrete order with `status = entregado` and `isPaid = true` satisfies
none of the three bucket predicates, so it falls in zero buckets, refuting
"every order falls in exactly one". -/
theorem buckets_not_exhaustive_counterexample :
    isActiveOrder deliveredPaidOrder = false ∧
    isPendingPaymentOrder deliveredPaidOrder = false ∧
    isCompletedOrder deliveredPaidOrder = false ∧
    deliveredPaidOrder.status = OrderStatus.entregado ∧
    deliveredPaidOrder.isPaid = true := by
  refine ⟨rfl, rfl, rfl, rfl, rfl⟩

/-- C1 (amended): the three bucket predicates are pairwise mutually
exclusive; every order that is not both delivered (`entregado`) and paid
falls in exactly one bucket; an order that is delivered and already marked
paid falls in no bucket at all. -/
theorem buckets_partition_amended (o : Order) :
    (¬(isActiveOrder o = true ∧ isPendingPaymentOrder o = true)) ∧
    (¬(isActiveOrder o = true ∧ isCompletedOrder o = true)) ∧
    (¬(isPendingPaymentOrder o = true ∧ isCompletedOrder o = true)) ∧
    (¬(o.status = OrderStatus.entregado ∧ o.isPaid = true) →
      (isActiveOrder o).toNat + (isPendingPaymentOrder o).toNat +
        (isCompletedOrder o).toNat = 1) ∧
    ((o.status = OrderStatus.entregado ∧ o.isPaid = true) →
      isActiveOrder o = false ∧ isPendingPaymentOrder o = false ∧
        isCompletedOrder o = false) := by
  obtain ⟨_, _, _, _, st, _, _, _, paid, _⟩ := o
  cases st <;> cases paid <;>
    simp [isActiveOrder, isPendingPaymentOrder, isCompletedOrder] <;> decide

/-- C1 witness: the amended partition statement applied to a concrete
non-delivered order (`status = en_armado`), discharging the hypothesis. -/
theorem buckets_partition_amended_witness :
    (isActiveOrder baseOrder).toNat + (isPendingPaymentOrder baseOrder).toNat +
      (isCompletedOrder baseOrder).toNat = 1 :=
  (buckets_partition_amended baseOrder).2.2.2.1 (by decide)

/-! ## Backend row model

The five Supabase tables (`orders`, `products`, `missing_products`,
`returned_products`, `order_history`), with the column sets that
`use-supabase.ts` reads and writes. -/

/-- A row of the `orders` table. -/
structure OrderRow where
  id : String
  client_name : String
  client_address : String
  status : OrderStatus
  payment_method : Option PaymentMethod
  is_paid : Bool
  armed_by : Option String
  controlled_by : Option String
  awaiting_payment_verification : Option Bool
  initial_notes : Option String
  created_at : Nat
  currently_working_by : Option String
  working_start_time : Option Nat
  total_amount : Option Int
deriving DecidableEq, Repr

/-- A row of the `products` table. -/
structure ProductRow where
  id : String
  order_id : String
  code : Option String
  name : String
  quantity : Int
  original_quantity : Option Int
  is_checked : Option Bool
  unit_price : Option Int
  subtotal : Option Int
deriving DecidableEq, Repr

/-- A row of the `missing_products` table. -/
structure MissingRow where
  order_id : String
  product_id : String
  product_name : String
  code : Option String
  quantity : Int
deriving DecidableEq, Repr

/-- A row of the `returned_products` table. -/
structure ReturnedRow where
  order_id : String
  product_id : String
  product_name : String
  code : Option String
  quantity : Int
  reason : Option String
deriving DecidableEq, Repr

/-- A row of the `order_history` table. -/
structure HistoryRow where
  id : String
  order_id : String
  action : String
  user_name : String
  notes : Option String
  created_at : Nat
deriving DecidableEq, Repr

/-- The backend database state: one list of rows per table. -/
structure DB where
  orders : List OrderRow
  products : List ProductRow
  missing : List MissingRow
  returned : List ReturnedRow
  history : List HistoryRow
deriving DecidableEq, Repr

/-! ## `mapOrderRow` (use-supabase.ts lines 130-171) -/

/-- The product branch of `mapOrderRow`:
`original_quantity`, `unit_price` and `subtotal` go through JS truthiness
(`x ? parseFloat(x) : undefined`), `quantity` and `is_checked` are copied
directly. -/
def mapProductRow (p : ProductRow) : Product :=
  { id := p.id
    code := p.code
    name := p.name
    quantity := p.quantity
    originalQuantity := jsNumField p.original_quantity
    isChecked := p.is_checked
    unitPrice := jsNumField p.unit_price
    subtotal := jsNumField p.subtotal }

/-- The missing-product branch of `mapOrderRow`. -/
def mapMissingRow (m : MissingRow) : MissingProduct :=
  { productId := m.product_id
    productName := m.product_name
    code := m.code
    quantity := m.quantity }

/-- The returned-product branch of `mapOrderRow`. -/
def mapReturnedRow (r : ReturnedRow) : ReturnedProduct :=
  { productId := r.product_id
    productName := r.product_name
    code := r.code
    quantity := r.quantity
    reason := r.reason }

/-- The history branch of `mapOrderRow` (before sorting). -/
def mapHistoryRow (h : HistoryRow) : HistoryEntry :=
  { id := h.id
    action := h.action
    user := h.user_name
    timestamp := h.created_at
    notes := h.notes }

/-- The `.sort((a, b) => a.timestamp - b.timestamp)` applied to history in
`mapOrderRow`: a stable sort by timestamp. -/
def sortHistory (l : List HistoryEntry) : List HistoryEntry :=
  l.insertionSort (fun a b => a.timestamp ≤ b.timestamp)

/-- `mapOrderRow`: maps one `orders` row together with its nested child
rows to an `Order`.  `total_amount` goes through JS truthiness
(`orderData.total_amount ? parseFloat(...) : undefined`); the
`working_start_time` test is on the stored ISO string, whose only falsy
value is `null`, so it is presence-preserving; `client_address || ""` is
the identity on the non-null string column. -/
def mapOrderRow (r : OrderRow) (ps : List ProductRow) (ms : List MissingRow)
    (rs : List ReturnedRow) (hs : List HistoryRow) : Order :=
  { id := r.id
    clientName := r.client_name
    clientAddress := r.client_address
    status := r.status
    paymentMethod := r.payment_method
    isPaid := r.is_paid
    armedBy := r.armed_by
    controlledBy := r.controlled_by
    awaitingPaymentVerification := r.awaiting_payment_verification
    initialNotes := r.initial_notes
    createdAt := r.created_at
    currentlyWorkingBy := r.currently_working_by
    workingStartTime := r.working_start_time
    totalAmount := jsNumField r.total_amount
    products := ps.map mapProductRow
    missingProducts := ms.map mapMissingRow
    returnedProducts := rs.map mapReturnedRow
    history := sortHistory (hs.map mapHistoryRow) }

/-- The nested select of `fetchOrders`: one order row joined with the child
rows whose `order_id` matches. -/
def rowToOrder (db : DB) (r : OrderRow) : Order :=
  mapOrderRow r
    (db.products.filter (fun p => p.order_id == r.id))
    (db.missing.filter (fun m => m.order_id == r.id))
    (db.returned.filter (fun x => x.order_id == r.id))
    (db.history.filter (fun h => h.order_id == r.id))

/-- Remote `fetchOrders` with `forceRefresh = true`, `prioritizeActive =
false`: the full query ordered by `created_at` descending, limited to 200
rows, each mapped by `mapOrderRow`. -/
def fetchOrdersRemote (db : DB) : List Order :=
  ((db.orders.insertionSort (fun a b => b.created_at ≤ a.created_at)).take 200).map
    (rowToOrder db)

/-! ## Remote `updateOrder` (use-supabase.ts lines 431-557)

Header row updated in place; `products`, `missing_products` and
`returned_products` are deleted for the order id and reinserted from the
argument; `order_history` is diffed by id and only new entries are
appended.  `gp` and `gh` supply the `generateUniqueId` results used when a
product or history entry arrives with a falsy (empty) id. -/

/-- The header `update({...}).eq("id", order.id)` of `updateOrder`
(`created_at` is not among the updated columns). -/
def updateOrderRow (r : OrderRow) (o : Order) : OrderRow :=
  { r with
    client_name := o.clientName
    client_address := o.clientAddress
    status := o.status
    payment_method := o.paymentMethod
    is_paid := o.isPaid
    armed_by := o.armedBy
    controlled_by := o.controlledBy
    awaiting_payment_verification := o.awaitingPaymentVerification
    initial_notes := o.initialNotes
    currently_working_by := o.currentlyWorkingBy
    working_start_time := o.workingStartTime
    total_amount := o.totalAmount }

/-- The product row inserted by `updateOrder` for the `i`-th product
(`id: p.id || generateUniqueId("PROD-")`). -/
def productInsertRow (oid : String) (gp : Nat → String) (i : Nat) (p : Product) :
    ProductRow :=
  { id := if p.id = "" then gp i else p.id
    order_id := oid
    code := p.code
    name := p.name
    quantity := p.quantity
    original_quantity := p.originalQuantity
    is_checked := p.isChecked
    unit_price := p.unitPrice
    subtotal := p.subtotal }

/-- The missing-product row inserted by `updateOrder`. -/
def missingInsertRow (oid : String) (m : MissingProduct) : MissingRow :=
  { order_id := oid
    product_id := m.productId
    product_name := m.productName
    code := m.code
    quantity := m.quantity }

/-- The returned-product row inserted by `updateOrder`. -/
def returnedInsertRow (oid : String) (r : ReturnedProduct) : ReturnedRow :=
  { order_id := oid
    product_id := r.productId
    product_name := r.productName
    code := r.code
    quantity := r.quantity
    reason := r.reason }

/-- The history row inserted by `updateOrder` for the `i`-th new entry
(`id: h.id || generateUniqueId("HIST-")`, `created_at` from the entry's
timestamp). -/
def historyInsertRow (oid : String) (gh : Nat → String) (i : Nat) (h : HistoryEntry) :
    HistoryRow :=
  { id := if h.id = "" then gh i else h.id
    order_id := oid
    action := h.action
    user_name := h.user
    notes := h.notes
    created_at := h.timestamp }

/-- The history entries of the argument whose ids are not already stored
for this order (`existingIds = new Set(...)`; `order.history.filter((h) =>
!existingIds.has(h.id))`). -/
def newHistoryEntries (db : DB) (o : Order) : List HistoryEntry :=
  let existingIds :=
    (db.history.filter (fun h => h.order_id == o.id)).map (fun h => h.id)
  o.history.filter (fun h => !(existingIds.contains h.id))

/-- The effect of a successful remote `updateOrder` call on the database. -/
def updateOrderDB (gp gh : Nat → String) (db : DB) (o : Order) : DB :=
  { orders := db.orders.map (fun r => if r.id = o.id then updateOrderRow r o else r)
    products :=
      db.products.filter (fun p => p.order_id != o.id) ++
        o.products.enum.map (fun ip => productInsertRow o.id gp ip.1 ip.2)
    missing :=
      db.missing.filter (fun m => m.order_id != o.id) ++
        o.missingProducts.map (missingInsertRow o.id)
    returned :=
      db.returned.filter (fun x => x.order_id != o.id) ++
        o.returnedProducts.map (returnedInsertRow o.id)
    history :=
      db.history ++
        (newHistoryEntries db o).enum.map (fun ih => historyInsertRow o.id gh ih.1 ih.2) }

/-! ## Local-storage fallback branches -/

/-- `list.findIndex(...)` followed by an assignment `list[i] = f(list[i])`:
the first element satisfying the predicate is replaced, everything else is
kept. -/
def updateFirstWhere (p : α → Bool) (f : α → α) : List α → List α
  | [] => []
  | x :: xs => if p x then f x :: xs else x :: updateFirstWhere p f xs

/-- `findIndex((o) => o.id === order.id)` + `list[i] = order`: replace the
first order with a matching id (used on both the in-memory cache and the
local-storage list by `updateOrder`). -/
def replaceFirstById (list : List Order) (o : Order) : List Order :=
  updateFirstWhere (fun x => x.id == o.id) (fun _ => o) list

/-- The local-storage branch of `updateOrder` (lines 437-444): the stored
aggregate with the matching id is replaced wholesale by the argument. -/
def updateOrderLocal (storage : List Order) (o : Order) : List Order :=
  replaceFirstById storage o

/-- All history-entry ids stored in a list of order aggregates. -/
def historyIds (l : List Order) : List String :=
  (l.map (fun o => o.history.map (fun h => h.id))).flatten

/-- C10: `mapOrderRow` maps a stored value of exactly `0` in
`total_amount`, `original_quantity`, `unit_price` or `subtotal` to the
absent value (`none`), and the resulting `Order` is literally identical to
the one obtained from the same row with those columns absent — a stored
zero is indistinguishable from an unset value after a fetch. -/
theorem mapOrderRow_zero_becomes_absent (r : OrderRow) (p : ProductRow)
    (ps : List ProductRow) (ms : List MissingRow) (rs : List ReturnedRow)
    (hs : List HistoryRow)
    (hta : r.total_amount = some 0) (hoq : p.original_quantity = some 0)
    (hup : p.unit_price = some 0) (hsub : p.subtotal = some 0) :
    (mapOrderRow r ps ms rs hs).totalAmount = none ∧
    (mapProductRow p).originalQuantity = none ∧
    (mapProductRow p).unitPrice = none ∧
    (mapProductRow p).subtotal = none ∧
    mapOrderRow r ps ms rs hs = mapOrderRow { r with total_amount := none } ps ms rs hs ∧
    mapProductRow p =
      mapProductRow { p with original_quantity := none, unit_price := none, subtotal := none } := by
  refine ⟨?_, ?_, ?_, ?_, ?_, ?_⟩ <;>
    simp [mapOrderRow, mapProductRow, jsNumField, hta, hoq, hup, hsub]

/-- C10 witness: the zero-to-absent mapping evaluated on a concrete row. -/
theorem mapOrderRow_zero_becomes_absent_witness :
    (mapOrderRow
        { id := "PED-1", client_name := "Acme", client_address := "",
          status := .en_armado, payment_method := none, is_paid := false,
          armed_by := none, controlled_by := none,
          awaiting_payment_verification := none, initial_notes := none,
          created_at := 0, currently_working_by := none,
          working_start_time := none, total_amount := some 0 }
        [] [] [] []).totalAmount = none ∧
    (mapProductRow
        { id := "PROD-1", order_id := "PED-1", code := none, name := "item",
          quantity := 3, original_quantity := some 0, is_checked := some false,
          unit_price := some 0, subtotal := some 0 }).originalQuantity = none := by
  have h := mapOrderRow_zero_becomes_absent
    { id := "PED-1", client_name := "Acme", client_address := "",
      status := .en_armado, payment_method := none, is_paid := false,
      armed_by := none, controlled_by := none,
      awaiting_payment_verification := none, initial_notes := none,
      created_at := 0, currently_working_by := none,
      working_start_time := none, total_amount := some 0 }
    { id := "PROD-1", order_id := "PED-1", code := none, name := "item",
      quantity := 3, original_quantity := some 0, is_checked := some false,
      unit_price := some 0, subtotal := some 0 }
    [] [] [] [] rfl rfl rfl rfl
  exact ⟨h.1, h.2.1⟩

/-- A stored order whose history holds one entry with id `HIST-0`. -/
def c3StoredOrder : Order :=
  { baseOrder with
    history := [{ id := "HIST-0", action := "Presupuesto creado y pedido listo para armar",
                  user := "Riki", timestamp := 5, notes := none }] }

/-- C3 (counterexample): in local mode, `updateOrder` replaces the stored
aggregate wholesale (`list[idx] = order`), so when the argument omits a
previously stored history entry that entry's id is removed: storage held
entry `HIST-0` before the call and holds no history entry at all after
updating with an argument whose history is empty. -/
theorem updateOrder_local_history_loss_counterexample :
    historyIds [c3StoredOrder] = ["HIST-0"] ∧
    historyIds (updateOrderLocal [c3StoredOrder] baseOrder) = [] := by
  refine ⟨rfl, rfl⟩

/-- C3 (amended): in remote mode every stored history row survives
`updateOrder` (rows are only ever appended, never deleted); in local mode
`updateOrder` replaces the stored aggregate with the argument wholesale,
so omitted history entries are removed. -/
theorem updateOrder_history_amended (gp gh : Nat → String) (db : DB) (o : Order)
    (hrow : HistoryRow) (hmem : hrow ∈ db.history)
    (a : Order) (rest : List Order) (hid : a.id = o.id) :
    hrow ∈ (updateOrderDB gp gh db o).history ∧
    updateOrderLocal (a :: rest) o = o :: rest := by
  constructor
  · simpa [updateOrderDB] using Or.inl hmem
  · simp [updateOrderLocal, replaceFirstById, updateFirstWhere, hid]

/-- C3 witness: the amended statement applied to a one-row history table
and a one-element local storage. -/
theorem updateOrder_history_amended_witness :
    ({ id := "HIST-0", order_id := "PED-1",
       action := "Presupuesto creado y pedido listo para armar",
       user_name := "Riki", notes := none, created_at := 5 } : HistoryRow) ∈
      (updateOrderDB (fun _ => "PROD-G") (fun _ => "HIST-G")
        { orders := [], products := [], missing := [], returned := [],
          history := [{ id := "HIST-0", order_id := "PED-1",
                        action := "Presupuesto creado y pedido listo para armar",
                        user_name := "Riki", notes := none, created_at := 5 }] }
        baseOrder).history ∧
    updateOrderLocal [c3StoredOrder] baseOrder = [baseOrder] :=
  updateOrder_history_amended (fun _ => "PROD-G") (fun _ => "HIST-G")
    { orders := [], products := [], missing := [], returned := [],
      history := [{ id := "HIST-0", order_id := "PED-1",
                    action := "Presupuesto creado y pedido listo para armar",
                    user_name := "Riki", notes := none, created_at := 5 }] }
    baseOrder _ (by simp) c3StoredOrder [] rfl

/-! ## C2: update-then-fetch round trip -/

/-- `jsNumField` is the identity away from the stored value `0`. -/
theorem jsNumField_of_ne_zero (x : Option Int) (h : x ≠ some 0) : jsNumField x = x := by
  match x with
  | none => rfl
  | some v =>
    have hv : v ≠ 0 := fun hv0 => h (by rw [hv0])
    simp [jsNumField, hv]

/-- Mapping over an index-enumerated list with a function that fixes every
element of the list gives back the list. -/
theorem enumFrom_map_fix {α : Type _} (f : Nat → α → α) :
    ∀ (n : Nat) (l : List α), (∀ a ∈ l, ∀ i, f i a = a) →
      (l.enumFrom n).map (fun ip => f ip.1 ip.2) = l := by
  intro n l
  induction l generalizing n with
  | nil => intro _; rfl
  | cons x xs ih =>
    intro h
    simp only [List.enumFrom_cons, List.map_cons, h x (List.mem_cons_self x xs)]
    rw [ih (n + 1) (fun a ha i => h a (List.mem_cons_of_mem x ha) i)]

/-- Reinserting a product row and mapping it back is the identity when the
product's id is non-empty and its optional numerics are not zero. -/
theorem mapProductRow_productInsertRow (oid : String) (gp : Nat → String) (i : Nat)
    (p : Product) (hpid : p.id ≠ "") (hoq : p.originalQuantity ≠ some 0)
    (hup : p.unitPrice ≠ some 0) (hsub : p.subtotal ≠ some 0) :
    mapProductRow (productInsertRow oid gp i p) = p := by
  simp [mapProductRow, productInsertRow, hpid, jsNumField_of_ne_zero _ hoq,
    jsNumField_of_ne_zero _ hup, jsNumField_of_ne_zero _ hsub]

/-- Reinserting a history row and mapping it back is the identity when the
entry's id is non-empty. -/
theorem mapHistoryRow_historyInsertRow (oid : String) (gh : Nat → String) (i : Nat)
    (h : HistoryEntry) (hid : h.id ≠ "") :
    mapHistoryRow (historyInsertRow oid gh i h) = h := by
  simp [mapHistoryRow, historyInsertRow, hid]

/-- A backend holding exactly one order row with id `PED-1` and no child
rows. -/
def c2Row : OrderRow :=
  { id := "PED-1", client_name := "Acme", client_address := "",
    status := .en_armado, payment_method := none, is_paid := false,
    armed_by := none, controlled_by := none,
    awaiting_payment_verification := none, initial_notes := none,
    created_at := 0, currently_working_by := none,
    working_start_time := none, total_amount := none }

/-- The one-order backend used by the C2 counterexample. -/
def c2Db : DB :=
  { orders := [c2Row], products := [], missing := [], returned := [], history := [] }

/-- The updated order of the C2 counterexample: `totalAmount = 0`. -/
def c2Order : Order :=
  { baseOrder with totalAmount := some 0 }

/-- C2 (counterexample): updating an order whose `totalAmount` is exactly
`0` and then fetching does NOT return the updated state: the stored `0`
comes back as the absent value, so the round trip is not equality in all
semantic fields when a numeric field is `0`. -/
theorem updateOrder_fetch_roundtrip_counterexample :
    c2Order.totalAmount = some 0 ∧
    (fetchOrdersRemote
        (updateOrderDB (fun _ => "PROD-G") (fun _ => "HIST-G") c2Db c2Order)).map
      (fun o => o.totalAmount) = [none] := by
  refine ⟨rfl, rfl⟩

/-- C2 (amended): a successful remote `updateOrder o` followed by a forced
fetch returns `o` itself, provided no optional numeric field of `o`
(`totalAmount`, product `originalQuantity`/`unitPrice`/`subtotal`) holds
the value `0` (a stored `0` is fetched back as absent), the product and
history ids are non-empty (falsy ids are regenerated on insert), the
history of `o` is sorted by timestamp and not yet present in the backend,
and the backend holds exactly the one header row of `o`. -/
theorem updateOrder_fetch_roundtrip (gp gh : Nat → String) (db : DB) (r : OrderRow)
    (o : Order)
    (hdb : db.orders = [r]) (hid : r.id = o.id) (hca : r.created_at = o.createdAt)
    (hhist : db.history.filter (fun h => h.order_id == o.id) = [])
    (hta : o.totalAmount ≠ some 0)
    (hp : ∀ p ∈ o.products,
      p.id ≠ "" ∧ p.originalQuantity ≠ some 0 ∧ p.unitPrice ≠ some 0 ∧ p.subtotal ≠ some 0)
    (hh : ∀ h ∈ o.history, h.id ≠ "")
    (hhs : o.history.Sorted (fun a b => a.timestamp ≤ b.timestamp)) :
    fetchOrdersRemote (updateOrderDB gp gh db o) = [o] := by
  have horders : (updateOrderDB gp gh db o).orders = [updateOrderRow r o] := by
    simp [updateOrderDB, hdb, hid]
  have hrid : (updateOrderRow r o).id = o.id := hid
  have hps : (updateOrderDB gp gh db o).products.filter
      (fun p => p.order_id == (updateOrderRow r o).id) =
      o.products.enum.map (fun ip => productInsertRow o.id gp ip.1 ip.2) := by
    rw [hrid]
    simp only [updateOrderDB, List.filter_append]
    rw [List.filter_eq_nil_iff.mpr, List.filter_eq_self.mpr, List.nil_append]
    · intro a ha
      simp only [List.mem_map, List.mem_enum] at ha
      obtain ⟨ip, _, hip⟩ := ha
      rw [← hip]
      simp [productInsertRow]
    · intro a ha
      have := List.of_mem_filter ha
      simp only [bne_iff_ne, ne_eq] at this
      simp [this]
  have hms : (updateOrderDB gp gh db o).missing.filter
      (fun m => m.order_id == (updateOrderRow r o).id) =
      o.missingProducts.map (missingInsertRow o.id) := by
    rw [hrid]
    simp only [updateOrderDB, List.filter_append]
    rw [List.filter_eq_nil_iff.mpr, List.filter_eq_self.mpr, List.nil_append]
    · intro a ha
      simp only [List.mem_map] at ha
      obtain ⟨m, _, hm⟩ := ha
      rw [← hm]
      simp [missingInsertRow]
    · intro a ha
      have := List.of_mem_filter ha
      simp only [bne_iff_ne, ne_eq] at this
      simp [this]
  have hrs : (updateOrderDB gp gh db o).returned.filter
      (fun x => x.order_id == (updateOrderRow r o).id) =
      o.returnedProducts.map (returnedInsertRow o.id) := by
    rw [hrid]
    simp only [updateOrderDB, List.filter_append]
    rw [List.filter_eq_nil_iff.mpr, List.filter_eq_self.mpr, List.nil_append]
    · intro a ha
      simp only [List.mem_map] at ha
      obtain ⟨x, _, hx⟩ := ha
      rw [← hx]
      simp [returnedInsertRow]
    · intro a ha
      have := List.of_mem_filter ha
      simp only [bne_iff_ne, ne_eq] at this
      simp [this]
  have hnewhist : newHistoryEntries db o = o.history := by
    simp [newHistoryEntries, hhist]
  have hhs2 : (updateOrderDB gp gh db o).history.filter
      (fun h => h.order_id == (updateOrderRow r o).id) =
      o.history.enum.map (fun ih => historyInsertRow o.id gh ih.1 ih.2) := by
    rw [hrid]
    simp only [updateOrderDB, List.filter_append, hnewhist]
    rw [hhist, List.filter_eq_self.mpr, List.nil_append]
    intro a ha
    simp only [List.mem_map, List.mem_enum] at ha
    obtain ⟨ih, _, hih⟩ := ha
    rw [← hih]
    simp [historyInsertRow]
  have hprodmap :
      (o.products.enum.map (fun ip => productInsertRow o.id gp ip.1 ip.2)).map
        mapProductRow = o.products := by
    rw [List.map_map]
    exact enumFrom_map_fix (fun i p => mapProductRow (productInsertRow o.id gp i p)) 0
      o.products (fun p hpm i =>
        mapProductRow_productInsertRow o.id gp i p (hp p hpm).1 (hp p hpm).2.1
          (hp p hpm).2.2.1 (hp p hpm).2.2.2)
  have hmissmap :
      (o.missingProducts.map (missingInsertRow o.id)).map mapMissingRow =
        o.missingProducts := by
    rw [List.map_map]
    have hfun : (mapMissingRow ∘ missingInsertRow o.id) = fun (m : MissingProduct) => m :=
      rfl
    rw [hfun, List.map_id']
  have hretmap :
      (o.returnedProducts.map (returnedInsertRow o.id)).map mapReturnedRow =
        o.returnedProducts := by
    rw [List.map_map]
    have hfun : (mapReturnedRow ∘ returnedInsertRow o.id) = fun (x : ReturnedProduct) => x :=
      rfl
    rw [hfun, List.map_id']
  have hhistmap :
      (o.history.enum.map (fun ih => historyInsertRow o.id gh ih.1 ih.2)).map
        mapHistoryRow = o.history := by
    rw [List.map_map]
    exact enumFrom_map_fix (fun i h => mapHistoryRow (historyInsertRow o.id gh i h)) 0
      o.history (fun h hhm i => mapHistoryRow_historyInsertRow o.id gh i h (hh h hhm))
  have hsort : sortHistory o.history = o.history :=
    List.Sorted.insertionSort_eq hhs
  unfold fetchOrdersRemote
  rw [horders]
  show [rowToOrder (updateOrderDB gp gh db o) (updateOrderRow r o)] = [o]
  unfold rowToOrder
  rw [hps, hms, hrs, hhs2]
  unfold mapOrderRow
  rw [hprodmap, hmissmap, hretmap, hhistmap, hsort]
  simp only [updateOrderRow, hrid, List.cons.injEq, and_true]
  have hta2 : jsNumField o.totalAmount = o.totalAmount := jsNumField_of_ne_zero _ hta
  obtain ⟨oi, ocn, oca, op, ost, omp, orp, opm, oip, oct, ohist, oab, ocb, oapv, oin,
    ocw, ows, ota⟩ := o
  simp_all

/-- C2 witness: the amended round trip evaluated on a concrete order with
one product, a non-zero total and a one-entry history. -/
theorem updateOrder_fetch_roundtrip_witness :
    fetchOrdersRemote (updateOrderDB (fun _ => "PROD-G") (fun _ => "HIST-G") c2Db
      { baseOrder with
        totalAmount := some 150
        products := [{ id := "PROD-1", code := none, name := "item", quantity := 2,
                       originalQuantity := some 2, isChecked := some false,
                       unitPrice := some 75, subtotal := some 150 }]
        history := [{ id := "HIST-1", action := "armado", user := "Camilo",
                      timestamp := 7, notes := none }] }) =
      [{ baseOrder with
         totalAmount := some 150
         products := [{ id := "PROD-1", code := none, name := "item", quantity := 2,
                        originalQuantity := some 2, isChecked := some false,
                        unitPrice := some 75, subtotal := some 150 }]
         history := [{ id := "HIST-1", action := "armado", user := "Camilo",
                       timestamp := 7, notes := none }] }] := by
  exact updateOrder_fetch_roundtrip (fun _ => "PROD-G") (fun _ => "HIST-G") c2Db c2Row _
    rfl rfl rfl rfl (by decide)
    (by intro p hp; simp at hp; subst hp; refine ⟨by decide, by decide, by decide, by decide⟩)
    (by intro h hmem; simp at hmem; subst hmem; decide)
    (by simp)

/-! ## C4: prioritized fetch and the cache merge (use-supabase.ts 173-233)

`fetchOrdersMerge` models the remote `fetchOrders` at the level of mapped
orders: `backend` is the full backend order set in `created_at`-descending
order (the query's server-side sort), and the query
`.neq("status", "pagado").limit(60)` / `.limit(200)` is the corresponding
filter/take.  The cache-window short-circuit, the merge with previously
cached paid orders, and the wholesale replacement are exactly the source's
lines 177 and 216-223. -/

/-- The module-level cache slot: `ordersCache` and `lastFetchTime`. -/
structure CacheState where
  orders : List Order
  lastFetchTime : Nat
deriving DecidableEq, Repr

/-- `CACHE_MS = 5_000`. -/
def CACHE_MS : Nat := 5000

/-- Remote `fetchOrders(forceRefresh, prioritizeActive)`: returns the
result list and the new cache state. -/
def fetchOrdersMerge (backend : List Order) (st : CacheState) (now : Nat)
    (forceRefresh prioritizeActive : Bool) : List Order × CacheState :=
  if !forceRefresh && !st.orders.isEmpty &&
      Nat.blt (now - st.lastFetchTime) CACHE_MS then
    (st.orders, st)
  else
    let mapped :=
      if prioritizeActive then (backend.filter (fun o => o.status != .pagado)).take 60
      else backend.take 200
    let newCache :=
      if prioritizeActive then
        mapped ++ st.orders.filter (fun o => o.status == .pagado)
      else mapped
    (newCache, { orders := newCache, lastFetchTime := now })

/-- A previously cached paid order with id `PED-X`. -/
def c4CachedPaid : Order :=
  { baseOrder with id := "PED-X", status := .pagado }

/-- The same order id `PED-X` as returned by a later prioritized fetch,
now in a non-terminal status. -/
def c4FreshActive : Order :=
  { baseOrder with id := "PED-X", status := .entregado }

/-- C4 (counterexample): when the cache holds a paid order whose id comes
back from a prioritized fetch in a non-terminal status, the merged result
contains that id twice — the claim's "no order id duplicated" fails. -/
theorem fetchOrders_prioritized_duplicate_counterexample :
    ((fetchOrdersMerge [c4FreshActive]
        { orders := [c4CachedPaid], lastFetchTime := 0 } 1000 true true).1.map
      (fun o => o.id)) = ["PED-X", "PED-X"] ∧
    ¬ (((fetchOrdersMerge [c4FreshActive]
        { orders := [c4CachedPaid], lastFetchTime := 0 } 1000 true true).1.map
      (fun o => o.id)).Nodup) := by
  refine ⟨rfl, by decide⟩

/-- C4 (amended): a forced prioritized fetch returns exactly the freshly
fetched non-terminal orders (bounded to 60) followed by every previously
cached paid order — no paid order is dropped; the result has no duplicate
ids PROVIDED the fresh ids are disjoint from the cached paid ids (the code
does not deduplicate, so a cached paid order whose id reappears
non-terminal is duplicated); a forced non-prioritized fetch replaces the
cache wholesale with the fetched set (bounded to 200). -/
theorem fetchOrders_prioritized_merge (backend : List Order) (st : CacheState)
    (now : Nat) :
    (fetchOrdersMerge backend st now true true).1 =
      (backend.filter (fun o => o.status != .pagado)).take 60 ++
        st.orders.filter (fun o => o.status == .pagado) ∧
    (fetchOrdersMerge backend st now true true).2.orders =
      (fetchOrdersMerge backend st now true true).1 ∧
    (∀ c ∈ st.orders, c.status = .pagado →
      c ∈ (fetchOrdersMerge backend st now true true).1) ∧
    ((∀ a ∈ (backend.filter (fun o => o.status != .pagado)).take 60,
        ∀ c ∈ st.orders.filter (fun o => o.status == .pagado), a.id ≠ c.id) →
      (((backend.filter (fun o => o.status != .pagado)).take 60).map
        (fun o => o.id)).Nodup →
      ((st.orders.filter (fun o => o.status == .pagado)).map (fun o => o.id)).Nodup →
      ((fetchOrdersMerge backend st now true true).1.map (fun o => o.id)).Nodup) ∧
    (fetchOrdersMerge backend st now true false).1 = backend.take 200 ∧
    (fetchOrdersMerge backend st now true false).2.orders = backend.take 200 := by
  have hres : (fetchOrdersMerge backend st now true true).1 =
      (backend.filter (fun o => o.status != .pagado)).take 60 ++
        st.orders.filter (fun o => o.status == .pagado) := by
    simp [fetchOrdersMerge]
  refine ⟨hres, by simp [fetchOrdersMerge], ?_, ?_, by simp [fetchOrdersMerge],
    by simp [fetchOrdersMerge]⟩
  · intro c hc hpaid
    rw [hres]
    exact List.mem_append_right _ (List.mem_filter.mpr ⟨hc, by rw [hpaid]; rfl⟩)
  · intro hdisj hn1 hn2
    rw [hres, List.map_append]
    rw [List.nodup_append]
    refine ⟨hn1, hn2, ?_⟩
    intro x hx1 hx2
    simp only [List.mem_map] at hx1 hx2
    obtain ⟨a, ha, hax⟩ := hx1
    obtain ⟨c, hc, hcx⟩ := hx2
    exact hdisj a ha c hc (hax.trans hcx.symm)

/-- C4 witness: the amended merge statement evaluated on a concrete
backend of 2 active orders and a cache of 1 paid order: all 3 survive with
distinct ids. -/
theorem fetchOrders_prioritized_merge_witness :
    ((fetchOrdersMerge
        [{ baseOrder with id := "PED-A" }, { baseOrder with id := "PED-B" }]
        { orders := [c4CachedPaid], lastFetchTime := 0 } 1000 true true).1.map
      (fun o => o.id)).Nodup :=
  (fetchOrders_prioritized_merge
      [{ baseOrder with id := "PED-A" }, { baseOrder with id := "PED-B" }]
      { orders := [c4CachedPaid], lastFetchTime := 0 } 1000).2.2.2.1
    (by decide) (by decide) (by decide)

/-! ## C5: `createOrder` initial state (use-supabase.ts 266-375) -/

/-- The `Omit<Order, ...>` argument of `createOrder`: everything the
caller supplies. -/
structure OrderData where
  clientName : String
  clientAddress : String
  products : List Product
  paymentMethod : Option PaymentMethod
  armedBy : Option String
  controlledBy : Option String
  awaitingPaymentVerification : Option Bool
  initialNotes : Option String
  totalAmount : Option Int
deriving DecidableEq, Repr

/-- The optimistic order built by `createOrder` (lines 284-308): fresh id,
initial status `en_armado`, empty shortage/return lists, unpaid, a single
history entry in the acting user's name, and each product stamped with
`originalQuantity := quantity` and `isChecked := false` (falsy product ids
replaced by `gp i`). -/
def createOptimistic (d : OrderData) (u : User) (orderId histId : String)
    (now : Nat) (gp : Nat → String) : Order :=
  { id := orderId
    clientName := d.clientName
    clientAddress := d.clientAddress
    status := .en_armado
    missingProducts := []
    returnedProducts := []
    paymentMethod := d.paymentMethod
    isPaid := false
    createdAt := now
    history := [{ id := histId
                  action := "Presupuesto creado y pedido listo para armar"
                  user := u.name
                  timestamp := now
                  notes := strOrUndefined d.initialNotes }]
    armedBy := d.armedBy
    controlledBy := d.controlledBy
    awaitingPaymentVerification := d.awaitingPaymentVerification
    initialNotes := d.initialNotes
    currentlyWorkingBy := none
    workingStartTime := none
    totalAmount := d.totalAmount
    products := d.products.enum.map (fun ip =>
      { ip.2 with
        id := if ip.2.id = "" then gp ip.1 else ip.2.id
        originalQuantity := some ip.2.quantity
        isChecked := some false }) }

/-- C5: creating an order from data with a single line item of quantity 10
yields status `en_armado`, empty missing/returned lists, `isPaid = false`,
exactly one history entry attributed to the acting user, and a line item
with `originalQuantity = 10` and `isChecked = false`. -/
theorem createOrder_initial_state (d : OrderData) (u : User) (oid hid : String)
    (now : Nat) (gp : Nat → String) (p : Product)
    (hprods : d.products = [p]) (hq : p.quantity = 10) :
    (createOptimistic d u oid hid now gp).status = OrderStatus.en_armado ∧
    (createOptimistic d u oid hid now gp).missingProducts = [] ∧
    (createOptimistic d u oid hid now gp).returnedProducts = [] ∧
    (createOptimistic d u oid hid now gp).isPaid = false ∧
    (createOptimistic d u oid hid now gp).history.length = 1 ∧
    (createOptimistic d u oid hid now gp).history.map (fun h => h.user) = [u.name] ∧
    (createOptimistic d u oid hid now gp).products.map (fun q => q.originalQuantity) =
      [some 10] ∧
    (createOptimistic d u oid hid now gp).products.map (fun q => q.isChecked) =
      [some false] := by
  refine ⟨rfl, rfl, rfl, rfl, rfl, rfl, ?_, ?_⟩ <;>
    simp [createOptimistic, hprods, hq, List.enum, List.enumFrom]

/-- C5 witness: the scenario of the spec — client `Acme`, one line item of
quantity 10 — evaluated concretely. -/
theorem createOrder_initial_state_witness :
    (createOptimistic
        { clientName := "Acme", clientAddress := "", paymentMethod := none,
          armedBy := none, controlledBy := none,
          awaitingPaymentVerification := none, initialNotes := none,
          totalAmount := none,
          products := [{ id := "PROD-1", code := none, name := "item",
                         quantity := 10, originalQuantity := none,
                         isChecked := none, unitPrice := none, subtotal := none }] }
        { id := "riki-1", name := "Riki", role := .vale }
        "PED-9" "HIST-9" 77 (fun _ => "PROD-G")).history.map (fun h => h.user) =
      ["Riki"] :=
  (createOrder_initial_state _ _ "PED-9" "HIST-9" 77 (fun _ => "PROD-G") _
    rfl rfl).2.2.2.2.2.1

/-! ## C6: notification projector (src/unnamed/part_001, lines 218-244) -/

/-- The three user-facing events derived by the page's diff effect. -/
inductive NotifEvent
  | newOrder (clientName : String)
  | statusChanged (clientName : String) (byUser : String)
  | workingOn (workerName : String) (clientName : String)
deriving DecidableEq, Repr

/-- The status-changed / started-working events for one current order
(`orders.forEach` body, lines 228-241). -/
def perOrderChangeEvents (previous : List Order) (u : Option User) (o : Order) :
    List NotifEvent :=
  match previous.find? (fun p => p.id == o.id) with
  | none => []
  | some prev =>
    (if prev.status ≠ o.status then
      match o.history.getLast? with
      | some last =>
        if some last.user ≠ u.map User.name then
          [NotifEvent.statusChanged o.clientName last.user]
        else []
      | none => []
    else []) ++
    (if !(strTruthy prev.currentlyWorkingBy) ∧ strTruthy o.currentlyWorkingBy ∧
        o.currentlyWorkingBy ≠ u.map User.name then
      [NotifEvent.workingOn (o.currentlyWorkingBy.getD "") o.clientName]
    else [])

/-- The "new order" events (lines 221-226): ids present in `current` but
absent in `previous`, each announced UNLESS `currentUser?.name === "Vale"`
— the suppression tests the user's display name, not the role. -/
def newOrderEvents (previous current : List Order) (u : Option User) :
    List NotifEvent :=
  ((current.filter (fun o => !(previous.any (fun p => p.id == o.id)))).map
    (fun o =>
      if u.map User.name ≠ some "Vale" then [NotifEvent.newOrder o.clientName]
      else [])).flatten

/-- The full diff effect: nothing fires unless both the previous and the
current snapshot are non-empty (line 220). -/
def projectEvents (previous current : List Order) (u : Option User) :
    List NotifEvent :=
  if 0 < previous.length ∧ 0 < current.length then
    newOrderEvents previous current u ++
      (current.map (perOrderChangeEvents previous u)).flatten
  else []

/-- `perOrderChangeEvents` never emits a `newOrder` event. -/
theorem newOrder_not_mem_perOrderChangeEvents (previous : List Order)
    (u : Option User) (o : Order) (c : String) :
    NotifEvent.newOrder c ∉ perOrderChangeEvents previous u o := by
  unfold perOrderChangeEvents
  split
  · simp
  · intro hmem
    rw [List.mem_append] at hmem
    rcases hmem with h | h
    · split at h
      · split at h
        · split at h <;> simp_all
        · simp at h
      · simp at h
    · split at h <;> simp_all

/-- The coordinator user `Riki` of the built-in user list: display name
`Riki`, role `vale`. -/
def c6Riki : User := { id := "riki-1", name := "Riki", role := .vale }

/-- An order id `PED-2` that is new in the current snapshot. -/
def c6New : Order := { baseOrder with id := "PED-2", clientName := "Beta" }

/-- C6 (counterexample): a user whose ROLE is `vale` (coordinator) but
whose display name is not `"Vale"` (Riki, from the built-in user list)
still receives the "new order" event — the code suppresses by the display
name `"Vale"`, not by role, refuting "if and only if the current user's
role is not coordinator". -/
theorem newOrder_event_role_counterexample :
    c6Riki.role = Role.vale ∧
    NotifEvent.newOrder "Beta" ∈
      projectEvents [baseOrder] [baseOrder, c6New] (some c6Riki) := by
  refine ⟨rfl, by decide⟩

/-- C6 (amended): for successive snapshots with a non-empty previous
snapshot, an order id present in the current snapshot but absent from the
previous one produces a "new order" event iff the current user's display
NAME is not exactly `"Vale"` (role is not consulted); and no event of any
kind fires when no previous snapshot exists. -/
theorem newOrder_event_iff_name (previous current : List Order) (u : Option User)
    (hprev : previous ≠ []) (o : Order) (ho : o ∈ current)
    (hfresh : ∀ p ∈ previous, p.id ≠ o.id) :
    (NotifEvent.newOrder o.clientName ∈ projectEvents previous current u ↔
      u.map User.name ≠ some "Vale") ∧
    projectEvents [] current u = [] := by
  constructor
  · have hguard : 0 < previous.length ∧ 0 < current.length :=
      ⟨List.length_pos.mpr hprev, List.length_pos.mpr (List.ne_nil_of_mem ho)⟩
    unfold projectEvents
    rw [if_pos hguard]
    constructor
    · intro hmem
      rw [List.mem_append] at hmem
      rcases hmem with h | h
      · unfold newOrderEvents at h
        rw [List.mem_flatten] at h
        obtain ⟨l, hl, hol⟩ := h
        rw [List.mem_map] at hl
        obtain ⟨x, _, hxl⟩ := hl
        intro hname
        rw [← hxl, if_neg (fun hc => hc hname)] at hol
        exact List.not_mem_nil _ hol
      · rw [List.mem_flatten] at h
        obtain ⟨l, hl, hol⟩ := h
        rw [List.mem_map] at hl
        obtain ⟨x, _, hxl⟩ := hl
        rw [← hxl] at hol
        exact absurd hol (newOrder_not_mem_perOrderChangeEvents previous u x _)
    · intro hname
      apply List.mem_append_left
      unfold newOrderEvents
      rw [List.mem_flatten]
      refine ⟨[NotifEvent.newOrder o.clientName], ?_, List.mem_singleton_self _⟩
      rw [List.mem_map]
      refine ⟨o, ?_, if_pos hname⟩
      rw [List.mem_filter]
      refine ⟨ho, ?_⟩
      simp only [List.any_eq_false, Bool.not_eq_true', beq_eq_false_iff_ne, ne_eq]
      intro p hp
      simpa using hfresh p hp
  · simp [projectEvents]

/-- C6 witness: the amended iff applied to the concrete snapshots, with a
user not named `Vale`: the event fires. -/
theorem newOrder_event_iff_name_witness :
    NotifEvent.newOrder "Beta" ∈
      projectEvents [baseOrder] [baseOrder, c6New] (some c6Riki) :=
  ((newOrder_event_iff_name [baseOrder] [baseOrder, c6New] (some c6Riki)
      (by decide) c6New (by decide) (by decide)).1).mpr (by decide)

/-! ## C7, C9: the working-claim operations (use-supabase.ts 377-428) -/

/-- The advisory-lock invariant: `currentlyWorkingBy` is set iff
`workingStartTime` is set. -/
def workingInv (o : Order) : Prop :=
  o.currentlyWorkingBy.isSome = o.workingStartTime.isSome

/-- Clearing both working fields (`currentlyWorkingBy: undefined,
workingStartTime: undefined`). -/
def clearWorkingFields (o : Order) : Order :=
  { o with currentlyWorkingBy := none, workingStartTime := none }

/-- `setWorkingOnOrder` as a cache transformation with persistence outcome
`dbOk`: non-`armador` roles return early; otherwise both fields are set
together optimistically and, on failure, cleared together (rollback). -/
def setWorkingOnOrderCache (cache : List Order) (orderId userName : String)
    (userRole : String) (now : Nat) (dbOk : Bool) : Bool × List Order :=
  if userRole ≠ "armador" then (true, cache)
  else
    let optimistic := cache.map (fun o =>
      if o.id == orderId then
        { o with currentlyWorkingBy := some userName, workingStartTime := some now }
      else o)
    if dbOk then (true, optimistic)
    else (false, optimistic.map (fun o =>
      if o.id == orderId then clearWorkingFields o else o))

/-- `clearWorkingOnOrder` as a cache transformation with persistence
outcome `dbOk`: a truthy non-`armador` role returns early; otherwise both
fields are cleared together (the cache is not rolled back on failure). -/
def clearWorkingOnOrderCache (cache : List Order) (orderId : String)
    (userName userRole : Option String) (dbOk : Bool) : Bool × List Order :=
  if strTruthy userRole ∧ userRole ≠ some "armador" then (true, cache)
  else
    (dbOk, cache.map (fun o => if o.id == orderId then clearWorkingFields o else o))

/-- The local-storage branch of `clearWorkingOnOrder` (lines 409-420):
the first stored order with the matching id is cleared only when no
`userName` was supplied or it is the current claimant; local mode always
reports success. -/
def clearWorkingOnOrderLocal (storage : List Order) (orderId : String)
    (userName userRole : Option String) : List Order × Bool :=
  if strTruthy userRole ∧ userRole ≠ some "armador" then (storage, true)
  else
    (updateFirstWhere (fun o => o.id == orderId)
      (fun oi =>
        if !(strTruthy userName) ∨ oi.currentlyWorkingBy == userName then
          clearWorkingFields oi
        else oi)
      storage, true)

/-- C7: the biconditional "`currentlyWorkingBy` set iff `workingStartTime`
set" is preserved by `setWorkingOnOrder` (both on success and on failure
rollback) and by `clearWorkingOnOrder`, for every order of the cache. -/
theorem working_inv_preserved (cache : List Order) (orderId userName : String)
    (userRole : String) (now : Nat) (dbOk : Bool)
    (userName2 userRole2 : Option String) (dbOk2 : Bool)
    (hinv : ∀ o ∈ cache, workingInv o) :
    (∀ o ∈ (setWorkingOnOrderCache cache orderId userName userRole now dbOk).2,
      workingInv o) ∧
    (∀ o ∈ (clearWorkingOnOrderCache cache orderId userName2 userRole2 dbOk2).2,
      workingInv o) := by
  constructor
  · intro o ho
    unfold setWorkingOnOrderCache at ho
    split at ho
    · exact hinv o ho
    · split at ho
      · simp only [List.mem_map] at ho
        obtain ⟨x, hx, hxo⟩ := ho
        subst hxo
        by_cases hxid : (x.id == orderId) = true
        · simp only [hxid, if_true]
          rfl
        · simp only [hxid, Bool.false_eq_true, if_false]
          exact hinv x hx
      · simp only [List.mem_map] at ho
        obtain ⟨y, hy, hyo⟩ := ho
        obtain ⟨x, hx, hxy⟩ := hy
        subst hyo
        subst hxy
        by_cases hxid : (x.id == orderId) = true
        · simp only [hxid, if_true]
          rfl
        · simp only [hxid, Bool.false_eq_true, if_false]
          exact hinv x hx
  · intro o ho
    unfold clearWorkingOnOrderCache at ho
    split at ho
    · exact hinv o ho
    · simp only [List.mem_map] at ho
      obtain ⟨x, hx, hxo⟩ := ho
      subst hxo
      by_cases hxid : (x.id == orderId) = true
      · simp only [hxid, if_true]
        rfl
      · simp only [hxid, Bool.false_eq_true, if_false]
        exact hinv x hx

/-- C7 witness: the invariant-preservation statement applied to a concrete
one-order cache (with the invariant holding), for a failing set followed
by a clear. -/
theorem working_inv_preserved_witness :
    workingInv baseOrder :=
  (working_inv_preserved [baseOrder] "PED-1" "Camilo" "armador" 42 false
    (some "Camilo") (some "armador") true
    (by intro o ho; simp at ho; subst ho; rfl)).1 baseOrder (by decide)

/-- An order with no claimant and no working start time. -/
theorem clearWorkingFields_eq_self (o : Order)
    (h1 : o.currentlyWorkingBy = none) (h2 : o.workingStartTime = none) :
    clearWorkingFields o = o := by
  obtain ⟨oi, ocn, oca, op, ost, omp, orp, opm, oip, oct, ohist, oab, ocb, oapv,
    oin, ocw, ows, ota⟩ := o
  simp only [clearWorkingFields] at *
  simp [h1, h2]

/-- `findIndex` + in-place update leaves the list unchanged when the
update fixes every matching element. -/
theorem updateFirstWhere_eq_self {α : Type _} (p : α → Bool) (f : α → α) :
    ∀ l : List α, (∀ a ∈ l, p a = true → f a = a) → updateFirstWhere p f l = l := by
  intro l
  induction l with
  | nil => intro _; rfl
  | cons x xs ih =>
    intro h
    unfold updateFirstWhere
    by_cases hx : p x = true
    · rw [if_pos hx, h x (List.mem_cons_self x xs) hx]
    · rw [if_neg hx, ih (fun a ha hpa => h a (List.mem_cons_of_mem x ha) hpa)]

/-- C9: calling `clearWorkingOnOrder` on an order with no current claimant
(and hence, by the working-fields invariant, no `workingStartTime`) is a
no-op on both the in-memory cache and the local-storage list, and still
reports success in both backend modes. -/
theorem clearWorking_unclaimed_noop (cache storage : List Order) (orderId : String)
    (userName userRole : Option String)
    (hc : ∀ o ∈ cache, o.id = orderId →
      o.currentlyWorkingBy = none ∧ o.workingStartTime = none)
    (hs : ∀ o ∈ storage, o.id = orderId →
      o.currentlyWorkingBy = none ∧ o.workingStartTime = none) :
    clearWorkingOnOrderCache cache orderId userName userRole true = (true, cache) ∧
    clearWorkingOnOrderLocal storage orderId userName userRole = (storage, true) := by
  constructor
  · unfold clearWorkingOnOrderCache
    split
    · rfl
    · have : cache.map (fun o => if o.id == orderId then clearWorkingFields o else o) =
          cache := by
        rw [show cache.map (fun o => if o.id == orderId then clearWorkingFields o else o) =
            cache.map id from List.map_congr_left ?_, List.map_id]
        intro o ho
        show (if o.id == orderId then clearWorkingFields o else o) = o
        by_cases hid : (o.id == orderId) = true
        · rw [if_pos hid]
          exact clearWorkingFields_eq_self o (hc o ho (by simpa using hid)).1
            (hc o ho (by simpa using hid)).2
        · rw [if_neg hid]
      rw [this]
  · unfold clearWorkingOnOrderLocal
    split
    · rfl
    · rw [updateFirstWhere_eq_self _ _ storage]
      intro a ha hpa
      have hid : a.id = orderId := by simpa using hpa
      have hcl : clearWorkingFields a = a :=
        clearWorkingFields_eq_self a (hs a ha hid).1 (hs a ha hid).2
      by_cases hcond : (!(strTruthy userName) ∨ a.currentlyWorkingBy == userName)
      · rw [if_pos hcond, hcl]
      · rw [if_neg hcond]

/-- C9 witness: the no-op statement evaluated on a concrete unclaimed
order in cache and storage, with an explicit userName/userRole. -/
theorem clearWorking_unclaimed_noop_witness :
    clearWorkingOnOrderCache [baseOrder] "PED-1" (some "Camilo") (some "armador")
      true = (true, [baseOrder]) ∧
    clearWorkingOnOrderLocal [baseOrder] "PED-1" (some "Camilo") (some "armador") =
      ([baseOrder], true) :=
  clearWorking_unclaimed_noop [baseOrder] [baseOrder] "PED-1" (some "Camilo")
    (some "armador")
    (by intro o ho _; simp at ho; subst ho; exact ⟨rfl, rfl⟩)
    (by intro o ho _; simp at ho; subst ho; exact ⟨rfl, rfl⟩)

/-! ## C8: failure rollback of create/delete, stale cache on update -/

/-- `createOrder` as a cache transformation with persistence outcome
`dbOk`: the optimistic order is prepended; on failure it is filtered back
out by id. -/
def createOrderCache (cache : List Order) (optimistic : Order) (dbOk : Bool) :
    Bool × List Order :=
  let c1 := optimistic :: cache
  if dbOk then (true, c1)
  else (false, c1.filter (fun o => o.id != optimistic.id))

/-- `deleteOrder` as a cache transformation with persistence outcome
`dbOk`: the order is filtered out optimistically; on failure the saved
previous cache is restored. -/
def deleteOrderCache (cache : List Order) (orderId : String) (dbOk : Bool) :
    Bool × List Order :=
  if dbOk then (true, cache.filter (fun o => o.id != orderId))
  else (false, cache)

/-- `updateOrder` as a cache transformation with persistence outcome
`dbOk`: the first cached order with the matching id is replaced before the
persistence attempt, and the cache is NOT rolled back on failure. -/
def updateOrderCacheRun (cache : List Order) (o : Order) (dbOk : Bool) :
    Bool × List Order :=
  (dbOk, replaceFirstById cache o)

/-- C8: on persistence failure, `createOrder` returns `false` with the
cache restored to its exact pre-operation contents (given the generated id
is fresh), `deleteOrder` returns `false` with the cache restored exactly,
and `updateOrder` returns `false` but leaves the optimistically updated
cache in place. -/
theorem persistence_failure_rollback (cache : List Order) (optimistic : Order)
    (orderId : String) (o : Order)
    (hfresh : ∀ x ∈ cache, x.id ≠ optimistic.id) :
    createOrderCache cache optimistic false = (false, cache) ∧
    deleteOrderCache cache orderId false = (false, cache) ∧
    updateOrderCacheRun cache o false = (false, replaceFirstById cache o) := by
  refine ⟨?_, rfl, rfl⟩
  have hflt : (optimistic :: cache).filter (fun x => x.id != optimistic.id) = cache := by
    rw [List.filter_cons_of_neg, List.filter_eq_self.mpr]
    · intro a ha
      simpa using hfresh a ha
    · simp
  simp only [createOrderCache, Bool.false_eq_true, if_false, hflt]

/-- C8 witness: the rollback statement evaluated on a concrete one-order
cache and a fresh optimistic order. -/
theorem persistence_failure_rollback_witness :
    createOrderCache [baseOrder] c6New false = (false, [baseOrder]) :=
  (persistence_failure_rollback [baseOrder] c6New "PED-1" baseOrder
    (by intro x hx; simp at hx; subst hx; decide)).1

end Pedidos
